import Mathlib

/-!
Verification of the Plexmuse front-end orchestration layer (`src/static/app.js`,
with the earlier revision in `src/unnamed/part_000`) against its natural-language
specification.

The JavaScript is shallowly embedded: the DOM surface touched by the handlers is
a record of the relevant element states; each handler becomes a pure function
from its inputs (the remote response it will observe) and the pre-state of the
DOM to the post-state, together with the observable events it emits (the network
request it issued, the `setLoading(false)` call sites that fired, the refresh
event trace).  Remote responses are modelled as inductive outcome types covering
the branches the code distinguishes.
-/

/-! ## Playlist length selector (`app.js` lines 117-150) -/

/-- The keys of `lengthConfigs` in the source: `short`, `medium`, `long`. -/
inductive LengthChoice
  | short
  | medium
  | long
deriving DecidableEq, Fintype, Repr

/-- A `{min, max}` track-count pair, as stored in `lengthConfigs`. -/
structure LenRange where
  min : Nat
  max : Nat
deriving DecidableEq, Repr

/-- Source: `const lengthConfigs = { short: {min:20,max:40}, medium: {min:50,max:70},
long: {min:100,max:140} }` (`app.js` lines 121-125). -/
def lengthConfigs : LengthChoice → LenRange
  | .short => ⟨20, 40⟩
  | .medium => ⟨50, 70⟩
  | .long => ⟨100, 140⟩

/-- The spec's `activeRange()`: the orchestrator reads
`const { min, max } = lengthConfigs[selectedLength]` (`app.js` line 204). -/
def activeRange (selectedLength : LengthChoice) : LenRange :=
  lengthConfigs selectedLength

/-- Source: `let selectedLength = 'medium'` (`app.js` line 119): the default choice. -/
def selectedLengthInit : LengthChoice := .medium

/-- One `.playlist-length-btn` element: its `data-length` attribute and whether
the active style classes (`border-plex-accent`, `bg-plex-accent/10`) are on it. -/
structure LengthButtonState where
  choice : LengthChoice
  active : Bool
deriving DecidableEq, Repr

/-- Modelled from the spec: the page markup (not under `src/`) supplies the
`.playlist-length-btn` elements.  Per the spec's LengthChoice description there
is exactly one button per choice; initial styling is irrelevant because
`setActiveLength` overwrites it at startup. -/
def lengthButtons : List LengthButtonState :=
  [⟨.short, false⟩, ⟨.medium, false⟩, ⟨.long, false⟩]

/-- Source `setActiveLength(length)` (`app.js` lines 127-140): records the selection
and restyles every button, active iff `btn.dataset.length === length`. -/
def setActiveLength (length : LengthChoice) (btns : List LengthButtonState) :
    LengthChoice × List LengthButtonState :=
  (length, btns.map fun b => { b with active := decide (b.choice = length) })

/-- The click handler on a length button (`app.js` lines 146-150):
`setActiveLength(button.dataset.length)` on the current button list. -/
def clickLength (s : LengthChoice × List LengthButtonState) (c : LengthChoice) :
    LengthChoice × List LengthButtonState :=
  setActiveLength c s.2

/-- Startup state: `setActiveLength(selectedLength)` (`app.js` line 143). -/
def initLengthState : LengthChoice × List LengthButtonState :=
  setActiveLength selectedLengthInit lengthButtons

/-- Number of buttons carrying the active styling. -/
def countActive (btns : List LengthButtonState) : Nat :=
  (btns.filter fun b => b.active).length

/-! ## Provider catalog (`app.js` lines 26-59) -/

/-- A provider object from the `/providers` response. -/
structure Provider where
  name : String
  description : String
  model : String
deriving DecidableEq, Repr

/-- Outcome of the `/providers` fetch in `fetchProviders`: either the whole
try-block fails (network error, non-ok status, or JSON decode failure — all
reach the same catch) or a provider list is obtained. -/
inductive CatalogOutcome
  | fetchError
  | loaded (ps : List Provider)
deriving DecidableEq, Repr

/-- The contents `fetchProviders` leaves in the `#llmProvider` select:
a disabled placeholder option with `value=""` ("No providers configured" /
"Error loading providers"), or one option per provider with the first selected. -/
inductive SelectContents
  | noProvidersOption
  | errorLoadingOption
  | providerOptions (ps : List Provider)
deriving DecidableEq, Repr

/-- Source `fetchProviders` (`app.js` lines 30-59), reduced to its effect on the
select element's contents. -/
def fetchProviders : CatalogOutcome → SelectContents
  | .fetchError => .errorLoadingOption
  | .loaded [] => .noProvidersOption
  | .loaded ps => .providerOptions ps

/-- The value `llmProviderSelect.value` for each possible contents: a placeholder option
has `value=""`; otherwise the selected (first) option's value is
`provider.model` (`app.js` lines 46-54). -/
def selectedOptionValue : SelectContents → String
  | .noProvidersOption => ""
  | .errorLoadingOption => ""
  | .providerOptions [] => ""
  | .providerOptions (p :: _) => p.model

/-! ## DOM surface touched by the submit handler -/

/-- One rendered `<li>` of `#tracksList` (`app.js` lines 251-261): the 1-based
position shown in the span (`index + 1`), and the title and artist lines. -/
structure TrackRow where
  position : Nat
  title : String
  artist : String
deriving DecidableEq, Repr

/-- The element state the submit handler reads or writes. -/
structure Dom where
  submitBtnDisabled : Bool
  submitSpinnerHidden : Bool
  submitBtnText : String
  skeletonHidden : Bool
  resultsHidden : Bool
  errorHidden : Bool
  errorText : String
  playlistName : String
  trackCount : String
  tracksList : List TrackRow
  plexLinkHref : String
deriving DecidableEq, Repr

/-- Source `setLoading(isLoading)` (`app.js` lines 179-192). -/
def setLoading (isLoading : Bool) (d : Dom) : Dom :=
  if isLoading then
    { d with submitBtnDisabled := true, submitSpinnerHidden := false,
             submitBtnText := "Generating...", skeletonHidden := false,
             resultsHidden := true }
  else
    { d with submitBtnDisabled := false, submitSpinnerHidden := true,
             submitBtnText := "Generate Playlist", skeletonHidden := true }

/-- Source `showError(message)` (`app.js` lines 153-165); the error elements exist. -/
def showError (message : String) (d : Dom) : Dom :=
  { d with errorText := message, errorHidden := false }

/-- Source `hideError()` (`app.js` lines 167-171). -/
def hideError (d : Dom) : Dom :=
  { d with errorHidden := true }

/-! ## `/recommendations` request and response model -/

/-- The JSON body POSTed to `/recommendations` (`app.js` lines 219-224). -/
structure RecRequest where
  prompt : String
  model : String
  min_tracks : Nat
  max_tracks : Nat
deriving DecidableEq, Repr

/-- A track object of the success body. -/
structure RecTrack where
  title : String
  artist : String
deriving DecidableEq, Repr

/-- The `tracks` field of a parsed success body, as classified by
`!data.tracks || !Array.isArray(data.tracks)` (`app.js` line 242):
`absent` covers a missing or otherwise falsy field, `notArray` a truthy
non-array value, `arr` an array (possibly empty — `[]` is truthy). -/
inductive TracksField
  | absent
  | notArray
  | arr (ts : List RecTrack)
deriving DecidableEq, Repr

/-- A parsed `/recommendations` success body.  `id` and `machine_identifier`
are optional strings; `none` models an absent field. -/
structure RecData where
  name : String
  track_count : Int
  tracks : TracksField
  id : Option String
  machine_identifier : Option String
deriving DecidableEq, Repr

/-- A non-success `/recommendations` response, assuming (per the spec's
external-interface contract) that a body whose declared content type is JSON
does parse as JSON.  `jsonDetail` is the `detail` field of that JSON object
(`none` when absent); `text` is the body text used when the content type is
not JSON. -/
structure HttpErrorResp where
  status : Nat
  contentType : Option String
  jsonDetail : Option String
  text : String
deriving DecidableEq, Repr

/-- Outcome of the `/recommendations` fetch as observed by the handler:
the fetch itself rejects (carrying the thrown error's message), the response
is ok but `response.json()` rejects (decoding failure, carrying that error's
message), a non-success response, or a parsed success body. -/
inductive RecResponse
  | networkError (msg : String)
  | okParseError (msg : String)
  | httpError (e : HttpErrorResp)
  | success (data : RecData)
deriving DecidableEq, Repr

/-- Does the character sequence start with the pattern? -/
def startsWithSeq : List Char → List Char → Bool
  | [], _ => true
  | _ :: _, [] => false
  | p :: ps, c :: cs => p == c && startsWithSeq ps cs

/-- Does the character sequence contain the pattern as a contiguous run?
This is JS `String.prototype.includes`. -/
def containsSeq (pat : List Char) : List Char → Bool
  | [] => startsWithSeq pat []
  | c :: cs => startsWithSeq pat (c :: cs) || containsSeq pat cs

/-- The test `contentType && contentType.includes("application/json")`
(`app.js` line 230): `headers.get` may return null (`none`), and `includes`
is substring containment. -/
def declaresJson : Option String → Bool
  | none => false
  | some s => containsSeq "application/json".data s.data

/-- The generic message `` `HTTP error! status: ${response.status}` ``. -/
def genericStatusMessage (status : Nat) : String :=
  "HTTP error! status: " ++ toString status

/-- Source `showError(error.message || 'Failed to generate playlist. Please try again.')`
(`app.js` line 276): JS `||` falls back exactly when the message is empty. -/
def orFallback (m : String) : String :=
  if m = "" then "Failed to generate playlist. Please try again." else m

/-- The message computed for a non-success response (`app.js` lines 227-237):
on a JSON content type, `errorData.detail || generic` (an absent or empty
`detail` is falsy); otherwise `textError || generic`. -/
def httpErrorMessage (e : HttpErrorResp) : String :=
  if declaresJson e.contentType then
    match e.jsonDetail with
    | some d => if d = "" then genericStatusMessage e.status else d
    | none => genericStatusMessage e.status
  else
    if e.text = "" then genericStatusMessage e.status else e.text

/-- The deep-link template (`app.js` line 265) with `machine_identifier` as the
server path segment and `id` as the playlist key. -/
def plexLinkUrl (machineIdentifier id : String) : String :=
  "https://app.plex.tv/desktop/#!/server/" ++ machineIdentifier ++
    "/playlist?key=/playlists/" ++ id ++ "&context=source:content.playlists"

/-- Rendering of `#tracksList` (`app.js` lines 251-261): one row per track in
order, numbered `index + 1`. -/
def renderTracks (ts : List RecTrack) : List TrackRow :=
  ts.enum.map fun p => { position := p.1 + 1, title := p.2.title, artist := p.2.artist }

/-- Which source call site released the loading state: the `setLoading(false)`
in the validation branch (`app.js` line 209), in the success path (line 269),
or in the catch block (line 277). -/
inductive ReleaseSite
  | validationBranch
  | successBranch
  | catchBranch
deriving DecidableEq, Repr

/-- Inputs the submit handler reads: the prompt text, the currently selected
length, the select element's current value, and the outcome the
`/recommendations` fetch would produce if issued. -/
structure SubmitInput where
  promptText : String
  selectedLength : LengthChoice
  selectValue : String
  response : RecResponse
deriving DecidableEq, Repr

/-- Result of one run of the submit handler: the final DOM state, the
`/recommendations` request body if one was issued (`none` when validation
failed before the fetch), and the `setLoading(false)` call sites that fired,
in order. -/
structure SubmitResult where
  dom : Dom
  request : Option RecRequest
  releases : List ReleaseSite
deriving DecidableEq, Repr

/-- The form submit handler (`app.js` lines 195-279), statement by statement:
enter loading and hide any previous error; read the range and the select
value; an empty value (`!selectedModel`) is a validation error shown locally
with no fetch; otherwise the fetch is issued and the handler branches on its
outcome exactly as the source does, every thrown error reaching the single
catch block. -/
def submit (inp : SubmitInput) (d0 : Dom) : SubmitResult :=
  let d1 := hideError (setLoading true d0)
  let range := lengthConfigs inp.selectedLength
  if inp.selectValue = "" then
    { dom := setLoading false (showError "Please select an AI provider" d1),
      request := none,
      releases := [ReleaseSite.validationBranch] }
  else
    let req : RecRequest :=
      { prompt := inp.promptText, model := inp.selectValue,
        min_tracks := range.min, max_tracks := range.max }
    match inp.response with
    | .networkError msg =>
        { dom := setLoading false (showError (orFallback msg) d1),
          request := some req,
          releases := [ReleaseSite.catchBranch] }
    | .okParseError msg =>
        { dom := setLoading false (showError (orFallback msg) d1),
          request := some req,
          releases := [ReleaseSite.catchBranch] }
    | .httpError e =>
        { dom := setLoading false (showError (orFallback (httpErrorMessage e)) d1),
          request := some req,
          releases := [ReleaseSite.catchBranch] }
    | .success data =>
        match data.tracks with
        | .arr ts =>
            let d2 := { d1 with playlistName := data.name,
                                trackCount := toString data.track_count ++ " tracks",
                                tracksList := renderTracks ts }
            let d3 :=
              match data.id, data.machine_identifier with
              | some i, some m =>
                  if i = "" then d2
                  else if m = "" then d2
                  else { d2 with plexLinkHref := plexLinkUrl m i }
              | _, _ => d2
            { dom := { setLoading false d3 with resultsHidden := false },
              request := some req,
              releases := [ReleaseSite.successBranch] }
        | _ =>
            { dom := setLoading false
                (showError (orFallback "Invalid response format: missing tracks data") d1),
              request := some req,
              releases := [ReleaseSite.catchBranch] }

/-! ## Library statistics refresh (`app.js` lines 86-108) -/

/-- The element state `refreshLibraryCache` touches. -/
structure StatsDom where
  statArtists : String
  statAlbums : String
  statTracks : String
  refreshBtnDisabled : Bool
  refreshSpinning : Bool
deriving DecidableEq, Repr

/-- The `stats` object of a `/refresh` success body. -/
structure RefreshStats where
  artists : Nat
  albums : Nat
  tracks : Nat
deriving DecidableEq, Repr

/-- Outcome of the `/refresh` POST: `failure` covers a rejected fetch, a
non-ok status, and a JSON decode failure (all reach the same catch, which only
logs); `success` carries the parsed `data.stats`. -/
inductive RefreshResponse
  | failure
  | success (stats : RefreshStats)
deriving DecidableEq, Repr

/-- Models `Number.prototype.toLocaleString()` on a non-negative integer in the
default en-US locale: decimal digits grouped in threes by commas.
`groupRev` works on the reversed digit list. -/
def groupRev : List Char → List Char
  | a :: b :: c :: d :: rest => a :: b :: c :: ',' :: groupRev (d :: rest)
  | l => l

/-- Rendering `n.toLocaleString()` for a natural count. -/
def toLocaleString (n : Nat) : String :=
  String.mk (groupRev (toString n).data.reverse).reverse

/-- The observable steps of `refreshLibraryCache`, in source order:
disable the button, start the icon spinning, issue the POST, on success set
the three stat fields from one payload, then (finally) re-enable the button
and stop the spin. -/
inductive RefreshEvent
  | disableBtn
  | startSpin
  | fetchIssued
  | setStatsFields (s : RefreshStats)
  | enableBtn
  | stopSpin
deriving DecidableEq, Repr

/-- The event trace of one run of `refreshLibraryCache` for a given outcome.
On failure the catch block performs no DOM step; the `finally` steps run in
both cases. -/
def refreshTrace : RefreshResponse → List RefreshEvent
  | .failure =>
      [.disableBtn, .startSpin, .fetchIssued, .enableBtn, .stopSpin]
  | .success s =>
      [.disableBtn, .startSpin, .fetchIssued, .setStatsFields s, .enableBtn, .stopSpin]

/-- Effect of one refresh event on the stats DOM. -/
def applyEvent (d : StatsDom) : RefreshEvent → StatsDom
  | .disableBtn => { d with refreshBtnDisabled := true }
  | .startSpin => { d with refreshSpinning := true }
  | .fetchIssued => d
  | .setStatsFields s =>
      { d with statArtists := toLocaleString s.artists,
               statAlbums := toLocaleString s.albums,
               statTracks := toLocaleString s.tracks }
  | .enableBtn => { d with refreshBtnDisabled := false }
  | .stopSpin => { d with refreshSpinning := false }

/-- Run a list of refresh events from a starting DOM state. -/
def runEvents (d : StatsDom) (evs : List RefreshEvent) : StatsDom :=
  evs.foldl applyEvent d

/-- Source `refreshLibraryCache` (`app.js` lines 87-108) as a state transformer:
the final DOM state after the full event trace of the given outcome. -/
def refreshLibraryCache (resp : RefreshResponse) (d : StatsDom) : StatsDom :=
  runEvents d (refreshTrace resp)

/-! ## Concrete instances used by closed theorems -/

/-- A concrete pre-submit DOM state. -/
def dom0 : Dom :=
  { submitBtnDisabled := false, submitSpinnerHidden := true,
    submitBtnText := "Generate Playlist", skeletonHidden := true,
    resultsHidden := true, errorHidden := true, errorText := "",
    playlistName := "", trackCount := "", tracksList := [], plexLinkHref := "" }

/-- The success body of the spec's rendering example. -/
def c9Data : RecData :=
  { name := "Mix", track_count := 2,
    tracks := .arr [⟨"A", "X"⟩, ⟨"B", "Y"⟩],
    id := none, machine_identifier := none }

/-- A submission that receives `c9Data`. -/
def c9Input : SubmitInput :=
  { promptText := "p", selectedLength := .medium, selectValue := "m",
    response := .success c9Data }

/-- A success body whose `id` is present but the empty string. -/
def c7Data : RecData :=
  { name := "Mix", track_count := 1,
    tracks := .arr [⟨"A", "X"⟩],
    id := some "", machine_identifier := some "srv" }

/-- A submission that receives `c7Data`. -/
def c7Input : SubmitInput :=
  { promptText := "p", selectedLength := .medium, selectValue := "m",
    response := .success c7Data }

/-- A pre-submit DOM whose deep-link element carries an earlier href. -/
def c7Dom : Dom :=
  { dom0 with plexLinkHref := "OLD" }

/-- A concrete stats DOM showing pre-refresh numbers. -/
def statsDom0 : StatsDom :=
  { statArtists := "1,234", statAlbums := "567", statTracks := "8,910",
    refreshBtnDisabled := false, refreshSpinning := false }

/-- A submission attempted while no model value is selectable: the select
value is the empty string, as after an empty or errored catalog fetch. -/
def cValInput : SubmitInput :=
  { promptText := "p", selectedLength := .medium, selectValue := "",
    response := .networkError "unreachable" }

/-- A concrete 500 response declaring JSON and carrying a `detail` string. -/
def c5Err : HttpErrorResp :=
  { status := 500, contentType := some "application/json",
    jsonDetail := some "model unavailable", text := "" }

/-- A submission that receives `c5Err`. -/
def c5Input : SubmitInput :=
  { promptText := "p", selectedLength := .short, selectValue := "m",
    response := .httpError c5Err }

/-- A success body with a missing `tracks` field. -/
def c6Data : RecData :=
  { name := "Mix", track_count := 0, tracks := .absent,
    id := none, machine_identifier := none }

/-- A submission that receives `c6Data`. -/
def c6Input : SubmitInput :=
  { promptText := "p", selectedLength := .long, selectValue := "m",
    response := .success c6Data }

/-- A success body with both deep-link fields present and nonempty. -/
def c7GoodData : RecData :=
  { name := "Mix", track_count := 1, tracks := .arr [⟨"A", "X"⟩],
    id := some "42", machine_identifier := some "srv" }

/-- A submission that receives `c7GoodData`. -/
def c7GoodInput : SubmitInput :=
  { promptText := "p", selectedLength := .medium, selectValue := "m",
    response := .success c7GoodData }

/-! ## Theorems -/

/-- Helper: any fold of length clicks over a normalized state is again a
normalized state for some choice. -/
theorem foldl_clickLength (c : LengthChoice) (sels : List LengthChoice) :
    ∃ c2, sels.foldl clickLength (setActiveLength c lengthButtons) =
      setActiveLength c2 lengthButtons := by
  induction sels generalizing c with
  | nil => exact ⟨c, rfl⟩
  | cons a tl ih =>
      have h : clickLength (setActiveLength c lengthButtons) a =
          setActiveLength a lengthButtons := by
        cases c <;> cases a <;> rfl
      rw [List.foldl_cons, h]
      exact ih a

/-- C2 (counterexample): the claim quantifies over "all four LengthChoice
values", but the source's `lengthConfigs` has exactly three keys, so the
LengthChoice type has exactly three values, not four. -/
theorem C2_counterexample :
    (∀ c : LengthChoice, c = .short ∨ c = .medium ∨ c = .long) ∧
    Fintype.card LengthChoice = 3 ∧ Fintype.card LengthChoice ≠ 4 := by
  decide

/-- C2 (amended): for all three LengthChoice values, `activeRange` returns
exactly the documented `{min, max}` pair (short: 20-40, medium: 50-70,
long: 100-140), the default pre-selected choice is `medium`, and after the
initial selection and any sequence of `select(choice)` operations exactly one
length button is marked active. -/
theorem C2_amended :
    (activeRange .short = ⟨20, 40⟩ ∧ activeRange .medium = ⟨50, 70⟩ ∧
      activeRange .long = ⟨100, 140⟩) ∧
    selectedLengthInit = .medium ∧
    initLengthState.1 = .medium ∧
    ∀ sels : List LengthChoice,
      countActive (sels.foldl clickLength initLengthState).2 = 1 := by
  refine ⟨⟨rfl, rfl, rfl⟩, rfl, rfl, fun sels => ?_⟩
  obtain ⟨c2, h⟩ := foldl_clickLength selectedLengthInit sels
  simp only [initLengthState] at *
  rw [h]
  cases c2 <;> rfl

/-- C1 (counterexample): after a failed `/refresh`, the three stat fields
still show exactly their pre-refresh numbers — the claim's required
"unavailable marker" never appears, because the catch block leaves the
fields untouched. -/
theorem C1_counterexample :
    (refreshLibraryCache .failure statsDom0).statArtists = "1,234" ∧
    (refreshLibraryCache .failure statsDom0).statAlbums = "567" ∧
    (refreshLibraryCache .failure statsDom0).statTracks = "8,910" ∧
    statsDom0.statArtists = "1,234" ∧
    statsDom0.statAlbums = "567" ∧
    statsDom0.statTracks = "8,910" := by
  decide

/-- C1 (amended): if the `/refresh` POST fails, the three stat fields keep
their pre-refresh displayed values unchanged (the code has no unavailable
marker and applies no pending visual to the fields), and the refresh trigger
is re-enabled with the spinner cleared. -/
theorem C1_amended (d0 : StatsDom) :
    (refreshLibraryCache .failure d0).statArtists = d0.statArtists ∧
    (refreshLibraryCache .failure d0).statAlbums = d0.statAlbums ∧
    (refreshLibraryCache .failure d0).statTracks = d0.statTracks ∧
    (refreshLibraryCache .failure d0).refreshBtnDisabled = false ∧
    (refreshLibraryCache .failure d0).refreshSpinning = false :=
  ⟨rfl, rfl, rfl, rfl, rfl⟩

/-- C9: given the success body `{name:"Mix", track_count:2,
tracks:[{title:"A",artist:"X"},{title:"B",artist:"Y"}]}`, the handler shows
the results surface with exactly two rows in server order numbered 1 and 2,
the playlist name "Mix", and the track-count label "2 tracks". -/
theorem C9_render :
    (submit c9Input dom0).dom.resultsHidden = false ∧
    (submit c9Input dom0).dom.playlistName = "Mix" ∧
    (submit c9Input dom0).dom.trackCount = "2 tracks" ∧
    (submit c9Input dom0).dom.tracksList =
      [{ position := 1, title := "A", artist := "X" },
       { position := 2, title := "B", artist := "Y" }] := by
  decide

/-- C3 (counterexample): the loading release is not a single shared cleanup
step — the validation-failure run and the success run release the loading
state from two different `setLoading(false)` call sites of the source
(`app.js` lines 209 and 269; the catch block at line 277 is a third),
i.e. the release is duplicated per branch rather than centralized. -/
theorem C3_counterexample :
    (submit cValInput dom0).releases = [ReleaseSite.validationBranch] ∧
    (submit c9Input dom0).releases = [ReleaseSite.successBranch] ∧
    ReleaseSite.validationBranch ≠ ReleaseSite.successBranch := by
  decide

/-- C3 (amended): for every outcome of submit (success, validation failure,
transport failure, decoding failure, or shape failure), the Loading indicator
is released exactly once at the end of the operation; in the code this is a
separate `setLoading(false)` call in each branch, not one shared cleanup
step. -/
theorem C3_amended (inp : SubmitInput) (d0 : Dom) :
    (submit inp d0).releases.length = 1 ∧
    (submit inp d0).dom.submitBtnDisabled = false ∧
    (submit inp d0).dom.submitSpinnerHidden = true ∧
    (submit inp d0).dom.submitBtnText = "Generate Playlist" ∧
    (submit inp d0).dom.skeletonHidden = true := by
  unfold submit
  by_cases hv : inp.selectValue = ""
  · simp [hv, setLoading, showError, hideError]
  · rw [if_neg hv]
    cases hr : inp.response with
    | networkError msg => simp [setLoading, showError, hideError]
    | okParseError msg => simp [setLoading, showError, hideError]
    | httpError e => simp [setLoading, showError, hideError]
    | success data =>
        cases ht : data.tracks with
        | absent => simp [ht, setLoading, showError, hideError]
        | notArray => simp [ht, setLoading, showError, hideError]
        | arr ts => simp [ht, setLoading, showError, hideError]

/-- C4: a submission made while no provider model is selectable (errored
catalog, empty catalog, or an empty select value) issues no request to
`/recommendations` and shows the local validation-error message. -/
theorem C4_validation (cat : CatalogOutcome) (inp : SubmitInput) (d0 : Dom)
    (hcat : cat = .fetchError ∨ cat = .loaded [] ∨
      selectedOptionValue (fetchProviders cat) = "")
    (hv : inp.selectValue = selectedOptionValue (fetchProviders cat)) :
    (submit inp d0).request = none ∧
    (submit inp d0).dom.errorHidden = false ∧
    (submit inp d0).dom.errorText = "Please select an AI provider" ∧
    (submit inp d0).dom.skeletonHidden = true := by
  have hempty : inp.selectValue = "" := by
    rcases hcat with h | h | h
    · rw [hv, h]; rfl
    · rw [hv, h]; rfl
    · rw [hv, h]
  unfold submit
  simp [hempty, setLoading, showError, hideError]

/-- Witness for C4 at the errored-catalog input. -/
theorem C4_validation_witness :
    (submit cValInput dom0).request = none ∧
    (submit cValInput dom0).dom.errorText = "Please select an AI provider" := by
  have h := C4_validation CatalogOutcome.fetchError cValInput dom0 (Or.inl rfl) rfl
  exact ⟨h.1, h.2.2.1⟩

/-- Helper: the generic status message is never the empty string, so the
catch block's `error.message || fallback` keeps it. -/
theorem genericStatusMessage_ne_empty (st : Nat) : genericStatusMessage st ≠ "" := by
  intro h
  have h2 := congrArg String.length h
  rw [genericStatusMessage, String.length_append] at h2
  have h3 : ("HTTP error! status: " : String).length = 20 := rfl
  have h4 : ("" : String).length = 0 := rfl
  rw [h3, h4] at h2
  omega

/-- Helper: the error text and visibility after a non-success
`/recommendations` response. -/
theorem submit_httpError_errorText (inp : SubmitInput) (d0 : Dom) (e : HttpErrorResp)
    (hv : inp.selectValue ≠ "") (hr : inp.response = .httpError e) :
    (submit inp d0).dom.errorText = orFallback (httpErrorMessage e) ∧
    (submit inp d0).dom.errorHidden = false := by
  simp only [submit, hr]
  simp [hv, setLoading, showError, hideError]

/-- C5: for every non-success `/recommendations` response (whose body is
well-formed for its declared content type, per the spec's interface
contract): a JSON content type with a nonempty `detail` string shows exactly
that detail; a non-JSON content type with a nonempty body text shows exactly
that text; otherwise the generic message carrying the numeric status code is
shown.  In every case the error surface is shown. -/
theorem C5_error_message (inp : SubmitInput) (d0 : Dom) (e : HttpErrorResp)
    (hv : inp.selectValue ≠ "") (hr : inp.response = .httpError e) :
    (∀ d, declaresJson e.contentType = true → e.jsonDetail = some d → d ≠ "" →
        (submit inp d0).dom.errorText = d) ∧
    (declaresJson e.contentType = false → e.text ≠ "" →
        (submit inp d0).dom.errorText = e.text) ∧
    ((declaresJson e.contentType = true →
        e.jsonDetail = none ∨ e.jsonDetail = some "") →
      (declaresJson e.contentType = false → e.text = "") →
        (submit inp d0).dom.errorText = genericStatusMessage e.status) ∧
    (submit inp d0).dom.errorHidden = false := by
  obtain ⟨hmsg, hshown⟩ := submit_httpError_errorText inp d0 e hv hr
  refine ⟨?_, ?_, ?_, hshown⟩
  · intro d hj hd hdne
    rw [hmsg]
    simp [httpErrorMessage, hj, hd, hdne, orFallback]
  · intro hj ht
    rw [hmsg]
    simp [httpErrorMessage, hj, ht, orFallback]
  · intro h1 h2
    rw [hmsg]
    cases hj : declaresJson e.contentType with
    | true =>
        rcases h1 hj with hd | hd <;>
          simp [httpErrorMessage, hj, hd, orFallback, genericStatusMessage_ne_empty e.status]
    | false =>
        simp [httpErrorMessage, hj, h2 hj, orFallback, genericStatusMessage_ne_empty e.status]

/-- Witness for C5: the HTTP 500 JSON body `{"detail":"model unavailable"}`
yields exactly "model unavailable". -/
theorem C5_error_message_witness :
    (submit c5Input dom0).dom.errorText = "model unavailable" :=
  (C5_error_message c5Input dom0 c5Err (by decide) rfl).1
    "model unavailable" (by decide) rfl (by decide)

/-- C6: a success-status response whose parsed body has a missing `tracks`
field or a non-sequence `tracks` shows exactly the domain-specific
shape-error message, shows the error surface, leaves the rendered track list
untouched, and leaves the results surface hidden. -/
theorem C6_shape_error (inp : SubmitInput) (d0 : Dom) (data : RecData)
    (hv : inp.selectValue ≠ "") (hr : inp.response = .success data)
    (hshape : data.tracks = .absent ∨ data.tracks = .notArray) :
    (submit inp d0).dom.errorText = "Invalid response format: missing tracks data" ∧
    (submit inp d0).dom.errorHidden = false ∧
    (submit inp d0).dom.tracksList = d0.tracksList ∧
    (submit inp d0).dom.resultsHidden = true := by
  rcases hshape with h | h <;>
  · simp only [submit, hr, h]
    simp [hv, h, setLoading, showError, hideError, orFallback]

/-- Witness for C6 at a body with a missing `tracks` field. -/
theorem C6_shape_error_witness :
    (submit c6Input dom0).dom.errorText = "Invalid response format: missing tracks data" ∧
    (submit c6Input dom0).dom.tracksList = dom0.tracksList :=
  ⟨(C6_shape_error c6Input dom0 c6Data (by decide) rfl (Or.inl rfl)).1,
   (C6_shape_error c6Input dom0 c6Data (by decide) rfl (Or.inl rfl)).2.2.1⟩

/-- C7 (counterexample): a success body whose `id` is present but the empty
string and whose `machine_identifier` is present and nonempty — the claim
says the deep link must be produced, but because the source tests JS
truthiness (`data.id && data.machine_identifier`) the href keeps its old
value "OLD", which is not the template result. -/
theorem C7_counterexample :
    c7Data.id = some "" ∧
    c7Data.machine_identifier = some "srv" ∧
    (submit c7Input c7Dom).dom.plexLinkHref = "OLD" ∧
    (submit c7Input c7Dom).dom.resultsHidden = false ∧
    plexLinkUrl "srv" "" ≠ "OLD" := by
  decide

/-- C7 (amended): on a well-formed result, when both `id` and
`machine_identifier` are present and nonempty the deep link is exactly the
documented template with `machine_identifier` as the server path segment and
`id` as the playlist key; when either is absent or empty (JS-falsy), the
href is left unchanged. -/
theorem C7_amended (inp : SubmitInput) (d0 : Dom) (data : RecData) (ts : List RecTrack)
    (hv : inp.selectValue ≠ "") (hr : inp.response = .success data)
    (ht : data.tracks = .arr ts) :
    (∀ i m, data.id = some i → data.machine_identifier = some m →
        i ≠ "" → m ≠ "" →
        (submit inp d0).dom.plexLinkHref = plexLinkUrl m i) ∧
    ((data.id = none ∨ data.machine_identifier = none ∨
        data.id = some "" ∨ data.machine_identifier = some "") →
      (submit inp d0).dom.plexLinkHref = d0.plexLinkHref) := by
  constructor
  · intro i m hi hm hine hmne
    simp only [submit, hr, ht]
    simp [hv, hi, hm, hine, hmne, setLoading, showError, hideError]
  · intro habs
    simp only [submit, hr, ht]
    rcases habs with h | h | h | h
    · cases hm : data.machine_identifier <;>
        simp [hv, h, hm, setLoading, showError, hideError]
    · cases hi : data.id <;>
        simp [hv, h, hi, setLoading, showError, hideError]
    · cases hm : data.machine_identifier <;>
        simp [hv, h, hm, setLoading, showError, hideError]
    · cases hi : data.id <;>
        simp [hv, h, hi, setLoading, showError, hideError]

/-- Witness for the amended C7 at a body with both fields nonempty. -/
theorem C7_amended_witness :
    (submit c7GoodInput dom0).dom.plexLinkHref = plexLinkUrl "srv" "42" :=
  (C7_amended c7GoodInput dom0 c7GoodData [⟨"A", "X"⟩] (by decide) rfl rfl).1
    "42" "srv" rfl rfl (by decide) (by decide)

/-- C8: a successful submission whose result lacks `id` or
`machine_identifier` leaves the deep-link element's href exactly as it was
before the submission, while the new results surface is shown alongside it. -/
theorem C8_plexlink_frame (inp : SubmitInput) (d0 : Dom) (data : RecData) (ts : List RecTrack)
    (hv : inp.selectValue ≠ "") (hr : inp.response = .success data)
    (ht : data.tracks = .arr ts)
    (hlack : data.id = none ∨ data.machine_identifier = none) :
    (submit inp d0).dom.plexLinkHref = d0.plexLinkHref ∧
    (submit inp d0).dom.resultsHidden = false := by
  simp only [submit, hr, ht]
  rcases hlack with h | h
  · cases hm : data.machine_identifier <;>
      simp [hv, h, hm, setLoading, showError, hideError]
  · cases hi : data.id <;>
      simp [hv, h, hi, setLoading, showError, hideError]

/-- Witness for C8 at a result with both link fields absent. -/
theorem C8_plexlink_frame_witness :
    (submit c9Input dom0).dom.plexLinkHref = dom0.plexLinkHref ∧
    (submit c9Input dom0).dom.resultsHidden = false :=
  C8_plexlink_frame c9Input dom0 c9Data [⟨"A", "X"⟩, ⟨"B", "Y"⟩]
    (by decide) rfl rfl (Or.inl rfl)

/-- C10: every run of `refreshLibraryCache` ends with the refresh trigger
re-enabled and the spinner cleared, whatever the outcome; and on every
prefix of the run's event trace that has issued the POST but not yet reached
the re-enable step, the trigger is disabled. -/
theorem C10_refresh_cleanup (resp : RefreshResponse) (d0 : StatsDom) :
    (refreshLibraryCache resp d0).refreshBtnDisabled = false ∧
    (refreshLibraryCache resp d0).refreshSpinning = false ∧
    ∀ k : Nat, RefreshEvent.fetchIssued ∈ (refreshTrace resp).take k →
      RefreshEvent.enableBtn ∉ (refreshTrace resp).take k →
      (runEvents d0 ((refreshTrace resp).take k)).refreshBtnDisabled = true := by
  cases resp with
  | failure =>
      refine ⟨rfl, rfl, fun k hmem hnot => ?_⟩
      rcases k with _ | _ | _ | _ | n
      · simp [refreshTrace] at hmem
      · simp [refreshTrace] at hmem
      · simp [refreshTrace] at hmem
      · simp [refreshTrace, runEvents, applyEvent]
      · exact absurd (by simp [refreshTrace, List.take_succ_cons]) hnot
  | success s =>
      refine ⟨rfl, rfl, fun k hmem hnot => ?_⟩
      rcases k with _ | _ | _ | _ | _ | n
      · simp [refreshTrace] at hmem
      · simp [refreshTrace] at hmem
      · simp [refreshTrace] at hmem
      · simp [refreshTrace, runEvents, applyEvent]
      · simp [refreshTrace, runEvents, applyEvent]
      · exact absurd (by simp [refreshTrace, List.take_succ_cons]) hnot

/-- Witness for C10 at a failed refresh: the run ends enabled and not
spinning, and the trigger is disabled at the point the POST is in flight. -/
theorem C10_refresh_cleanup_witness :
    (refreshLibraryCache .failure statsDom0).refreshBtnDisabled = false ∧
    (refreshLibraryCache .failure statsDom0).refreshSpinning = false ∧
    (runEvents statsDom0 ((refreshTrace .failure).take 3)).refreshBtnDisabled = true :=
  ⟨(C10_refresh_cleanup RefreshResponse.failure statsDom0).1,
   (C10_refresh_cleanup RefreshResponse.failure statsDom0).2.1,
   (C10_refresh_cleanup RefreshResponse.failure statsDom0).2.2 3
     (by decide) (by decide)⟩
